import Mathlib

/-!
Shallow embedding of `src/pyghcli/gh_wrapper.py` (class `GH_CLI`).

JSON values parsed from the wrapped tool's standard output are modelled by
the inductive type `Json`; a parsed Python `dict` is an association list in
insertion order (keys unique after parsing).  Python exceptions that the
code can raise or catch are modelled by `PyExc`; a function that can raise
returns `Except PyExc _`.  The result of `json.loads` on the child
process's stdout is modelled as `Except Unit Json` (`.error ()` standing
for a `json.JSONDecodeError` on non-JSON text), so the child process
itself is a stub function from the argument vector to that parse outcome.
-/

set_option autoImplicit false

namespace PyGHCLI

/-- A parsed JSON value (the possible results of Python `json.loads`). -/
inductive Json where
  | null
  | bool (b : Bool)
  | num (n : Int)
  | str (s : String)
  | arr (elems : List Json)
  | obj (fields : List (String × Json))

mutual

/-- Decidable equality on `Json` (the automatic deriver does not handle
the nesting through `List`). -/
def Json.decEq : (a b : Json) → Decidable (a = b)
  | .null, .null => .isTrue rfl
  | .bool a, .bool b =>
    if h : a = b then .isTrue (by rw [h]) else .isFalse (fun hh => h (Json.bool.inj hh))
  | .num a, .num b =>
    if h : a = b then .isTrue (by rw [h]) else .isFalse (fun hh => h (Json.num.inj hh))
  | .str a, .str b =>
    if h : a = b then .isTrue (by rw [h]) else .isFalse (fun hh => h (Json.str.inj hh))
  | .arr xs, .arr ys =>
    match Json.decEqList xs ys with
    | .isTrue h => .isTrue (by rw [h])
    | .isFalse h => .isFalse (fun hh => h (Json.arr.inj hh))
  | .obj xs, .obj ys =>
    match Json.decEqFields xs ys with
    | .isTrue h => .isTrue (by rw [h])
    | .isFalse h => .isFalse (fun hh => h (Json.obj.inj hh))
  | .null, .bool _ | .null, .num _ | .null, .str _ | .null, .arr _ | .null, .obj _
  | .bool _, .null | .bool _, .num _ | .bool _, .str _ | .bool _, .arr _ | .bool _, .obj _
  | .num _, .null | .num _, .bool _ | .num _, .str _ | .num _, .arr _ | .num _, .obj _
  | .str _, .null | .str _, .bool _ | .str _, .num _ | .str _, .arr _ | .str _, .obj _
  | .arr _, .null | .arr _, .bool _ | .arr _, .num _ | .arr _, .str _ | .arr _, .obj _
  | .obj _, .null | .obj _, .bool _ | .obj _, .num _ | .obj _, .str _ | .obj _, .arr _ =>
    .isFalse (fun hh => Json.noConfusion hh)

def Json.decEqList : (xs ys : List Json) → Decidable (xs = ys)
  | [], [] => .isTrue rfl
  | [], _ :: _ => .isFalse (fun hh => List.noConfusion hh)
  | _ :: _, [] => .isFalse (fun hh => List.noConfusion hh)
  | x :: xs, y :: ys =>
    match Json.decEq x y, Json.decEqList xs ys with
    | .isTrue h1, .isTrue h2 => .isTrue (by rw [h1, h2])
    | .isFalse h1, _ => .isFalse (fun hh => h1 (List.cons.inj hh).1)
    | _, .isFalse h2 => .isFalse (fun hh => h2 (List.cons.inj hh).2)

def Json.decEqFields : (xs ys : List (String × Json)) → Decidable (xs = ys)
  | [], [] => .isTrue rfl
  | [], _ :: _ => .isFalse (fun hh => List.noConfusion hh)
  | _ :: _, [] => .isFalse (fun hh => List.noConfusion hh)
  | (k1, v1) :: xs, (k2, v2) :: ys =>
    match String.decEq k1 k2, Json.decEq v1 v2, Json.decEqFields xs ys with
    | .isTrue h0, .isTrue h1, .isTrue h2 => .isTrue (by rw [h0, h1, h2])
    | .isFalse h0, _, _ =>
      .isFalse (fun hh => h0 (congrArg Prod.fst (List.cons.inj hh).1))
    | _, .isFalse h1, _ =>
      .isFalse (fun hh => h1 (congrArg Prod.snd (List.cons.inj hh).1))
    | _, _, .isFalse h2 => .isFalse (fun hh => h2 (List.cons.inj hh).2)

end

instance : DecidableEq Json := Json.decEq

instance {e a : Type} [DecidableEq e] [DecidableEq a] :
    DecidableEq (Except e a) := fun
  | .ok x, .ok y =>
    if h : x = y then .isTrue (by rw [h])
    else .isFalse (fun hh => h (Except.ok.inj hh))
  | .error x, .error y =>
    if h : x = y then .isTrue (by rw [h])
    else .isFalse (fun hh => h (Except.error.inj hh))
  | .ok _, .error _ => .isFalse (fun hh => Except.noConfusion hh)
  | .error _, .ok _ => .isFalse (fun hh => Except.noConfusion hh)

/-- Python exceptions relevant to `gh_wrapper.py`. -/
inductive PyExc where
  | valueError (payload : Json)
  | jsonDecodeError
  | calledProcessError
  | keyError (key : String)
  | typeError
  | systemExit (code : Nat)
  deriving DecidableEq

/-- First-match association-list lookup (Python `d[k]` on a parsed dict,
whose keys are unique). -/
def lookupField (fields : List (String × Json)) (k : String) : Option Json :=
  match fields with
  | [] => none
  | (k', v) :: rest => if k' = k then some v else lookupField rest k

/-- Python truthiness (`if permission`) of a value decoded from JSON. -/
def pyTruthy : Json → Bool
  | .null => false
  | .bool b => b
  | .num n => n != 0
  | .str s => s != ""
  | .arr elems => !elems.isEmpty
  | .obj fields => !fields.isEmpty

/-- Python iteration `for x in v`: a list yields its elements, a dict its
keys, a string its one-character substrings; other values raise
`TypeError` (not iterable). -/
def pyIter : Json → Except PyExc (List Json)
  | .arr elems => .ok elems
  | .obj fields => .ok (fields.map (fun kv => .str kv.1))
  | .str s => .ok (s.data.map (fun c => .str (String.singleton c)))
  | _ => .error .typeError

/-- Python subscript `v["k"]`: a dict either yields the value or raises
`KeyError`; any other value raises `TypeError`. -/
def pySub (v : Json) (k : String) : Except PyExc Json :=
  match v with
  | .obj fields =>
    match lookupField fields k with
    | some x => .ok x
    | none => .error (.keyError k)
  | _ => .error .typeError

/-- `output['status']` guarded by
`isinstance(output, dict) and 'status' in output.keys()`. -/
def Json.statusOf : Json → Option Json
  | .obj fields => lookupField fields "status"
  | _ => none

/-- `run_gh_command` returning `None` on an error path and Python `None`
being the same value as JSON `null`, the `Option Json` result of a call is
read back as a plain Python value by `none ↦ null`. -/
def toPy : Option Json → Json
  | some v => v
  | none => .null

/-- The argument vector built at the top of `run_gh_command`:
`[self.gh_cli_path, "-H", f"{self.api_version_header}", command, *args]`
with `api_version_header = f"X-GitHub-API-Version:{api_version}"`. -/
def subprocess_cmd (ghCliPath apiVersion command : String)
    (args : List String) : List String :=
  [ghCliPath, "-H", "X-GitHub-API-Version:" ++ apiVersion, command] ++ args

/-- The `try:` body of `run_gh_command`, after the subprocess has run:
`json.loads` the stdout (a decode failure raises `JSONDecodeError`), and
when the result is a dict with a `status` key, match it against the string
literals `'200' | '201' | '204'` (success, fall through and return) and
`'404' | '422' | _` (raise `ValueError(output)`). -/
def run_gh_command_try (loadResult : Except Unit Json) : Except PyExc Json :=
  match loadResult with
  | .error _ => .error .jsonDecodeError
  | .ok output =>
    match output.statusOf with
    | none => .ok output
    | some s =>
      if s = .str "200" then .ok output
      else if s = .str "201" then .ok output
      else if s = .str "204" then .ok output
      else if s = .str "404" then .error (.valueError output)
      else if s = .str "422" then .error (.valueError output)
      else .error (.valueError output)

/-- The `except` clauses of `run_gh_command`, applied to an exception
raised by the body.  The handlers are, in order, `CalledProcessError`,
`ValueError` (which also catches `json.JSONDecodeError`, a `ValueError`
subclass, so the dedicated `JSONDecodeError` clause is shadowed) and
`Exception`; every one ends with the call producing `None`.  `SystemExit`
derives from `BaseException`, not `Exception`, so it would escape. -/
def handleRunExc : PyExc → Except PyExc (Option Json)
  | .calledProcessError => .ok none
  | .valueError _ => .ok none
  | .jsonDecodeError => .ok none
  | .keyError _ => .ok none
  | .typeError => .ok none
  | .systemExit c => .error (.systemExit c)

/-- `GH_CLI.run_gh_command` as observed by its caller, as a function of
the `json.loads` outcome of the child's stdout: `.ok (some v)` means the
call returned the parsed value `v`, `.ok none` means it returned `None`,
and `.error e` would mean an exception `e` propagated out. -/
def run_gh_command (loadResult : Except Unit Json) :
    Except PyExc (Option Json) :=
  match run_gh_command_try loadResult with
  | .ok output => .ok (some output)
  | .error e => handleRunExc e

/-- The child process as seen by this layer: a stub mapping the argument
vector to the `json.loads` outcome of the text it prints on stdout
(`.error ()` when that text is not valid JSON, e.g. help text or the empty
output of a failed invocation). -/
def Stub : Type := List String → Except Unit Json

/-- `run_gh_command` together with the subprocess invocation it performs:
the result of the call, paired with the argument vector handed to
`subprocess.run`. -/
def run_gh_command_exec (exec : Stub) (ghCliPath apiVersion : String)
    (command : String) (args : List String) :
    Except PyExc (Option Json) × List (List String) :=
  let argv := subprocess_cmd ghCliPath apiVersion command args
  (run_gh_command (exec argv), [argv])

/-- `GH_CLI.run_gh_api_get`: `self.run_gh_command("api", api_url)`. -/
def run_gh_api_get (exec : Stub) (ghCliPath apiVersion : String)
    (apiUrl : String) : Except PyExc (Option Json) × List (List String) :=
  run_gh_command_exec exec ghCliPath apiVersion "api" [apiUrl]

/-- `GH_CLI.run_gh_api_post`:
`self.run_gh_command("api", api_url, '-X', "POST", *args)`. -/
def run_gh_api_post (exec : Stub) (ghCliPath apiVersion : String)
    (apiUrl : String) (args : List String) :
    Except PyExc (Option Json) × List (List String) :=
  run_gh_command_exec exec ghCliPath apiVersion "api" ([apiUrl, "-X", "POST"] ++ args)

mutual

/-- Python `repr` of a JSON-decoded value, as used by `str`/f-strings on
containers; `\x27` is the single-quote character Python puts around
strings inside containers. -/
def pyRepr : Json → String
  | .null => "None"
  | .bool true => "True"
  | .bool false => "False"
  | .num n => toString n
  | .str s => "\x27" ++ s ++ "\x27"
  | .arr elems => "[" ++ pyReprList elems ++ "]"
  | .obj fields => "\x7b" ++ pyReprFields fields ++ "\x7d"

def pyReprList : List Json → String
  | [] => ""
  | [x] => pyRepr x
  | x :: xs => pyRepr x ++ ", " ++ pyReprList xs

def pyReprFields : List (String × Json) → String
  | [] => ""
  | [(k, v)] => "\x27" ++ k ++ "\x27: " ++ pyRepr v
  | (k, v) :: xs => "\x27" ++ k ++ "\x27: " ++ pyRepr v ++ ", " ++ pyReprFields xs

end

/-- Python `str(v)` (what an f-string interpolates): the string itself for
a string, `repr` otherwise. -/
def pyStr : Json → String
  | .str s => s
  | v => pyRepr v

/-- Insertion into a Python dict under construction: an existing key keeps
its position and gets the new value, a new key is appended. -/
def dictInsert (d : List (Json × List Json)) (k : Json) (v : List Json) :
    List (Json × List Json) :=
  match d with
  | [] => [(k, v)]
  | (k', v') :: rest =>
    if k' = k then (k, v) :: rest else (k', v') :: dictInsert rest k v

/-- `GH_CLI.setup_repo_index`, applied to the Python value held in
`self.repos_raw`:
`{repo['full_name']:[permission for permission in repo['permissions'] if permission] for repo in self.repos_raw}`.
Iterating `repo['permissions']` yields its keys, and `if permission`
filters those keys by their own truthiness. -/
def setup_repo_index (reposRaw : Json) :
    Except PyExc (List (Json × List Json)) := do
  let repos ← pyIter reposRaw
  let entries ← repos.mapM (fun repo => do
    let name ← pySub repo "full_name"
    let perms ← pySub repo "permissions"
    let permItems ← pyIter perms
    pure (name, permItems.filter pyTruthy))
  pure (entries.foldl (fun d kv => dictInsert d kv.1 kv.2) [])

/-- Python `str.strip()` with no arguments: remove leading and trailing
whitespace (applied to the decoded stdout of `which gh`). -/
def pyStrip (s : String) : String :=
  ⟨((s.data.dropWhile Char.isWhitespace).reverse.dropWhile
      Char.isWhitespace).reverse⟩

/-- `GH_CLI.get_gh_cli_path`, as a function of the outcome of
`subprocess.check_output(['which', 'gh'])` (`.error ()` standing for the
`CalledProcessError` raised when `which` exits nonzero): on success the
decoded stdout is stripped and returned, otherwise the error is logged and
`sys.exit(1)` terminates the process with code 1. -/
def get_gh_cli_path (whichResult : Except Unit String) : Except Nat String :=
  match whichResult with
  | .ok out => .ok (pyStrip out)
  | .error _ => .error 1

/-- The attributes a successfully constructed `GH_CLI` instance holds. -/
structure GHState where
  gh_cli_path : String
  user : Json
  username : Json
  repos_raw : Json
  repo_perm_index : List (Json × List Json)
  deriving DecidableEq

/-- `GH_CLI.__init__`, as a function of the `which gh` outcome, the API
version and the child-process stub.  Returns the constructed state (or the
exception that escaped construction, `SystemExit 1` when the executable is
missing) together with the list of argument vectors the wrapped tool was
invoked with, in order. -/
def ghInit (whichResult : Except Unit String) (apiVersion : String)
    (exec : Stub) : Except PyExc GHState × List (List String) :=
  match get_gh_cli_path whichResult with
  | .error code => (.error (.systemExit code), [])
  | .ok path =>
    let argv1 := subprocess_cmd path apiVersion "api" ["/user"]
    match run_gh_command (exec argv1) with
    | .error e => (.error e, [argv1])
    | .ok userOpt =>
      let user := toPy userOpt
      match pySub user "login" with
      | .error e => (.error e, [argv1])
      | .ok username =>
        let argv2 := subprocess_cmd path apiVersion "api"
          ["/users/" ++ pyStr username ++ "/repos"]
        match run_gh_command (exec argv2) with
        | .error e => (.error e, [argv1, argv2])
        | .ok reposOpt =>
          let reposRaw := toPy reposOpt
          match setup_repo_index reposRaw with
          | .error e => (.error e, [argv1, argv2])
          | .ok index =>
            (.ok ⟨path, user, username, reposRaw, index⟩, [argv1, argv2])

/-- The stubbed executable of the end-to-end scenario: prints
`{"login":"octocat"}` for an argument vector ending in `api /user` and
`[{"full_name":"octocat/repo1","permissions":{"admin":true}}]` for one
ending in `api /users/octocat/repos`. -/
def octoExec : Stub := fun argv =>
  if ["api", "/user"].isSuffixOf argv then
    .ok (.obj [("login", .str "octocat")])
  else if ["api", "/users/octocat/repos"].isSuffixOf argv then
    .ok (.arr [.obj [("full_name", .str "octocat/repo1"),
                     ("permissions", .obj [("admin", .bool true)])]])
  else .error ()

/-- A string-valued JSON node test, used to state that a `status` field
holds a non-string value. -/
def Json.isString : Json → Bool
  | .str _ => true
  | _ => false

/-- Any `status` value other than the three success strings makes the
`try:` body raise `ValueError(output)`, and the surrounding handlers turn
that into a `None` result. -/
theorem run_gh_command_error_status (j v : Json)
    (hstat : j.statusOf = some v)
    (h200 : v ≠ .str "200") (h201 : v ≠ .str "201") (h204 : v ≠ .str "204") :
    run_gh_command_try (.ok j) = .error (.valueError j) ∧
    run_gh_command (.ok j) = .ok none := by
  have htry : run_gh_command_try (.ok j) = .error (.valueError j) := by
    unfold run_gh_command_try
    simp only [hstat, if_neg h200, if_neg h201, if_neg h204]
    split_ifs <;> rfl
  refine ⟨htry, ?_⟩
  unfold run_gh_command
  rw [htry]
  rfl

/-- C1: on the repository list
`[{"full_name":"a/b","permissions":{"pull":true,"push":false}}]` the
index built by `setup_repo_index` maps `"a/b"` to `["pull", "push"]`:
iterating `repo['permissions']` yields the keys, and `if permission`
tests the truthiness of each nonempty key string, so the falsy `push`
entry is kept, contradicting the stated property that only `pull`
appears. -/
theorem C1_setup_repo_index_keeps_falsy_entry :
    setup_repo_index (.arr [.obj [("full_name", .str "a/b"),
      ("permissions", .obj [("pull", .bool true), ("push", .bool false)])]]) =
    .ok [(.str "a/b", [.str "pull", .str "push"])] := by decide

/-- C2: with the stubbed executable that answers `{"login":"octocat"}` to
`api /user` and the one-repository list to `api /users/octocat/repos`,
construction succeeds with `username == "octocat"` and
`repo_perm_index == {"octocat/repo1": ["admin"]}`. -/
theorem C2_end_to_end_construction :
    ∃ st : GHState,
      (ghInit (.ok "/usr/bin/gh\n") "2022-11-28" octoExec).1 = .ok st ∧
      st.username = .str "octocat" ∧
      st.repo_perm_index = [(.str "octocat/repo1", [.str "admin"])] :=
  ⟨⟨"/usr/bin/gh", .obj [("login", .str "octocat")], .str "octocat",
    .arr [.obj [("full_name", .str "octocat/repo1"),
                ("permissions", .obj [("admin", .bool true)])]],
    [(.str "octocat/repo1", [.str "admin"])]⟩, by decide, rfl, rfl⟩

/-- C3: whenever the parsed stdout is a dict whose `status` field is one
of the strings `"200"`, `"201"`, `"204"`, `run_gh_command` returns the
parsed object unchanged (and raises nothing). -/
theorem C3_success_status_returns_parsed (j v : Json)
    (hstat : j.statusOf = some v)
    (hsucc : v = .str "200" ∨ v = .str "201" ∨ v = .str "204") :
    run_gh_command (.ok j) = .ok (some j) := by
  unfold run_gh_command run_gh_command_try
  rcases hsucc with h | h | h <;> subst h <;> simp [hstat]

/-- C3 witness: the success theorem applied to `{"status": "200"}`. -/
theorem C3_success_status_witness :
    (Json.obj [("status", .str "200")]).statusOf = some (.str "200") ∧
    run_gh_command (.ok (.obj [("status", .str "200")])) =
      .ok (some (.obj [("status", .str "200")])) :=
  ⟨by decide,
   C3_success_status_returns_parsed _ _ (by decide) (Or.inl rfl)⟩

/-- C4: whenever the parsed stdout is a dict whose `status` field is any
value other than the success strings (`"404"`, `"422"` or anything else),
the body raises `ValueError` carrying the full response, the handler
chain contains it, and the caller gets `None`. -/
theorem C4_error_status_contained_returns_none (j v : Json)
    (hstat : j.statusOf = some v)
    (h200 : v ≠ .str "200") (h201 : v ≠ .str "201") (h204 : v ≠ .str "204") :
    run_gh_command_try (.ok j) = .error (.valueError j) ∧
    run_gh_command (.ok j) = .ok none :=
  run_gh_command_error_status j v hstat h200 h201 h204

/-- C4 witness: the error-status theorem applied to `{"status": "404"}`. -/
theorem C4_error_status_witness :
    (Json.obj [("status", .str "404")]).statusOf = some (.str "404") ∧
    (run_gh_command_try (.ok (.obj [("status", .str "404")])) =
       .error (.valueError (.obj [("status", .str "404")])) ∧
     run_gh_command (.ok (.obj [("status", .str "404")])) = .ok none) :=
  ⟨by decide,
   C4_error_status_contained_returns_none (.obj [("status", .str "404")])
     (.str "404") (by decide) (by decide) (by decide) (by decide)⟩

/-- C5: when the stdout is not valid JSON (`json.loads` raises a decode
error), `run_gh_command` returns `None` and no exception escapes. -/
theorem C5_non_json_returns_none :
    run_gh_command (.error ()) = .ok none := rfl

/-- C6: when the parsed stdout is valid JSON that is not a dict or is a
dict without a `status` key, `run_gh_command` returns the parsed value
as-is. -/
theorem C6_no_status_returned_as_is (j : Json)
    (hstat : j.statusOf = none) :
    run_gh_command (.ok j) = .ok (some j) := by
  unfold run_gh_command run_gh_command_try
  simp [hstat]

/-- C6 witness: the as-is theorem applied to the JSON list `[1]`. -/
theorem C6_no_status_witness :
    (Json.arr [.num 1]).statusOf = none ∧
    run_gh_command (.ok (.arr [.num 1])) = .ok (some (.arr [.num 1])) :=
  ⟨rfl, C6_no_status_returned_as_is _ rfl⟩

/-- C7: when `which gh` fails, construction terminates with the uncaught
`SystemExit 1` (a nonzero exit code) and the wrapped tool is never
invoked: the list of subprocess argument vectors is empty. -/
theorem C7_missing_executable_exits_without_invocation
    (apiVersion : String) (exec : Stub) :
    ghInit (.error ()) apiVersion exec = (.error (.systemExit 1), []) ∧
    (1 : Nat) ≠ 0 :=
  ⟨rfl, by decide⟩

/-- C8: `run_gh_command` hands the child process exactly the argument
vector `[path, "-H", "X-GitHub-API-Version:" ++ version, command] ++
args`, and `run_gh_api_post url args` is `run_gh_command "api" url "-X"
"POST" args`. -/
theorem C8_argv_shape_and_post_refinement
    (exec : Stub) (path version command url : String) (args : List String) :
    (run_gh_command_exec exec path version command args).2 =
      [[path, "-H", "X-GitHub-API-Version:" ++ version, command] ++ args] ∧
    run_gh_api_post exec path version url args =
      run_gh_command_exec exec path version "api" ([url, "-X", "POST"] ++ args) :=
  ⟨rfl, rfl⟩

/-- C9: for every `json.loads` outcome of the child's stdout (any text,
including the empty output of a failed invocation), `run_gh_command`
finishes normally — the caller always receives `.ok`, carrying either a
parsed value or `None`, and no exception propagates. -/
theorem C9_run_gh_command_never_raises (loadResult : Except Unit Json) :
    ∃ res : Option Json, run_gh_command loadResult = .ok res := by
  unfold run_gh_command run_gh_command_try
  cases loadResult with
  | error u => exact ⟨none, rfl⟩
  | ok j =>
    cases hstat : j.statusOf with
    | none => exact ⟨some j, by simp [hstat]⟩
    | some s =>
      simp only [hstat]
      split_ifs <;> first
        | exact ⟨some j, rfl⟩
        | exact ⟨none, rfl⟩

/-- C10: a `status` field holding a non-string value (such as the number
200) matches none of the string-literal success cases, so the default
branch raises `ValueError` and the call returns `None`. -/
theorem C10_non_string_status_is_error (j v : Json)
    (hstat : j.statusOf = some v) (hns : v.isString = false) :
    run_gh_command_try (.ok j) = .error (.valueError j) ∧
    run_gh_command (.ok j) = .ok none := by
  have hne : ∀ t : String, v ≠ .str t := by
    intro t h
    subst h
    simp [Json.isString] at hns
  exact run_gh_command_error_status j v hstat (hne _) (hne _) (hne _)

/-- C10 witness: the non-string-status theorem applied to
`{"status": 200}` (the JSON number 200). -/
theorem C10_non_string_status_witness :
    (Json.obj [("status", .num 200)]).statusOf = some (.num 200) ∧
    (Json.num 200).isString = false ∧
    (run_gh_command_try (.ok (.obj [("status", .num 200)])) =
       .error (.valueError (.obj [("status", .num 200)])) ∧
     run_gh_command (.ok (.obj [("status", .num 200)])) = .ok none) :=
  ⟨by decide, by decide,
   C10_non_string_status_is_error (.obj [("status", .num 200)]) (.num 200)
     (by decide) (by decide)⟩

end PyGHCLI
